import Mathlib

/-!
Shallow embedding of the DicomHTJ2K transcoding pipeline
(`src/htj2k/compression.py`) and proofs about the behaviour its
specification describes.

Modelling conventions:
* numpy integer buffers are `List Int`; a numpy `astype` to an unsigned
  w-bit type reduces each value modulo `2 ^ w` (numpy casts wrap, they do
  not saturate);
* Python exceptions are `Except String` errors carrying the message;
* the external `ojph_compress` / `ojph_expand` subprocesses are
  parameters: their captured stdout/stderr streams are inputs of the
  orchestrator functions, and the bytes handed to them are recorded in
  the result so that invocation (or its absence) is observable;
* the module-level warning global is `Option Bool`: `none` models a name
  that was never bound at module scope (a Python read of such a global
  raises `NameError`).
-/

namespace DicomHTJ2K

/-- numpy `astype` to an unsigned `w`-bit integer type: values are reduced
modulo `2 ^ w` (two's-complement truncation), which for a negative or
oversized value wraps rather than saturates. -/
def astypeUint (w : Nat) (v : Int) : Nat := (v % ((2 : Int) ^ w)).toNat

/-- `img.astype(np.uintw)` applied elementwise to a pixel buffer. -/
def astypeUintArr (w : Nat) (img : List Int) : List Nat := img.map (astypeUint w)

/-- `np.min(img)` for a nonempty buffer (the `headD` default is irrelevant
for nonempty input). -/
def npMin (img : List Int) : Int := img.foldl min (img.headD 0)

/-- `np.max(img)` for a nonempty buffer. -/
def npMax (img : List Int) : Int := img.foldl max (img.headD 0)

/-- Message of the `ValueError` raised by `HTJ2K._compress` in strict mode
(`compression.py` line 309). -/
def precisionErrorMsg : String :=
  "Precision Error! Currently only 8-bit and 16-bit unsigned integers (uint8 and uint16) are supported"

/-- Message of the `NameError` raised when the unbound module global
`__PRECISION_WARNING` (name-mangled to `_HTJ2K__PRECISION_WARNING`) is read
at `compression.py` line 311. -/
def nameErrorMsg : String :=
  "NameError: name _HTJ2K__PRECISION_WARNING is not defined"

/-- Message of the `ValueError` numpy raises for `np.min` of an empty array. -/
def emptyArrayMsg : String :=
  "ValueError: zero-size array to reduction operation minimum which has no identity"

/-- Process-initial state of the module-level precision-warning global.
The source declares `global __PRECISION_WARNING` inside `HTJ2K._compress`
but no statement at module scope ever binds it, so at process start the
name is unbound: `none`. -/
def initPrecisionWarning : Option Bool := none

/-- The data `HTJ2K._compress` hands to the external encoder on success:
the selected sample width (8 or 16 bits) and the cast samples written to
the intermediate pgm file. -/
structure CompressCall where
  width : Nat
  samples : List Nat
deriving DecidableEq, Repr

/-- `HTJ2K._compress` precision handling (`compression.py` lines 295-319),
threading the module-level warning global `g`.  The source guard
`img.dtype != np.uint8 or img.dtype != np.uint16` is true for every dtype,
so the precision branch always executes.  On success, returns whether a
warning was emitted on this call, the updated global, and the encoder
call produced; an `Except.error` means a Python exception escaped before
any encoder invocation. -/
def underscoreCompress (img : List Int) (strict : Bool) (g : Option Bool) :
    Except String (Bool × Option Bool × CompressCall) :=
  if img = [] then .error emptyArrayMsg
  else
    let min_val := npMin img
    let max_val := npMax img
    if min_val < 0 ∨ max_val > 65535 then
      if strict then
        .error precisionErrorMsg
      else
        match g with
        | none =>
            -- `if not __PRECISION_WARNING` reads an unbound global
            .error nameErrorMsg
        | some w =>
            let width : Nat := if max_val > 255 then 16 else 8
            .ok (!w, some true, ⟨width, astypeUintArr width img⟩)
    else
      let width : Nat := if max_val > 255 then 16 else 8
      .ok (false, g, ⟨width, astypeUintArr width img⟩)

/-- Claim C1: the spec says out-of-range samples are clipped (saturated) to
the representable bound and never wrapped.  The code casts with numpy
`astype`, which wraps: at input `[70000]` with `strict = false` (and the
warning global already bound, so the separate `NameError` defect of C2 does
not mask the cast) the sample actually encoded is `70000 % 65536 = 4464`,
not the bound `65535`.  The 16-bit width selection part of the claim does
hold. -/
theorem c1_cast_wraps_not_clips :
    underscoreCompress [70000] false (some true) =
      .ok (false, some true, ⟨16, [4464]⟩) ∧ (4464 : Nat) ≠ 65535 :=
  ⟨rfl, by decide⟩

/-- Claim C2: the spec says the first violating call emits a one-time
warning and succeeds.  Instead, from the process-initial state the first
violating call reads the never-bound module global `__PRECISION_WARNING`
and raises `NameError`, so it neither warns nor succeeds (and the flag can
never be set). -/
theorem c2_first_violation_raises_name_error :
    underscoreCompress [70000] false initPrecisionWarning = .error nameErrorMsg := rfl

/-- Claim C3: with `strict = true`, a nonempty buffer whose range exceeds
`[0, 65535]` makes `_compress` raise the precision error before any cast
or encoder invocation, for every state of the warning global; no
`CompressCall` is produced and the input buffer is untouched. -/
theorem c3_strict_raises_precision_error (img : List Int) (g : Option Bool)
    (hne : img ≠ []) (hr : npMin img < 0 ∨ npMax img > 65535) :
    underscoreCompress img true g = .error precisionErrorMsg := by
  unfold underscoreCompress
  simp [hne, hr]

/-- Concrete instantiation of `c3_strict_raises_precision_error` at the
buffer `[70000]` with the process-initial global state. -/
theorem c3_witness :
    ([(70000 : Int)] ≠ []) ∧ (npMin [(70000 : Int)] < 0 ∨ npMax [(70000 : Int)] > 65535) ∧
      underscoreCompress [70000] true initPrecisionWarning = .error precisionErrorMsg :=
  ⟨by decide, Or.inr (by decide),
    c3_strict_raises_precision_error [70000] initPrecisionWarning (by decide) (Or.inr (by decide))⟩

/-- Progression orders supported by OpenJPH (`compression.py` lines 25-34). -/
inductive ProgressionOrder
  | LRCP
  | RLCP
  | RPCL
  | PCRL
  | CPRL
deriving DecidableEq, Repr

/-- Tilepart groupings supported by OpenJPH (`compression.py` lines 36-43). -/
inductive Tileparts
  | R
  | C
  | RC
deriving DecidableEq, Repr

/-- The `encoder_params` dictionary assembled by `HTJ2K.compress`
(`compression.py` lines 377-397): `none` models a key absent from the
dictionary, so the corresponding keyword argument of the backend keeps its
own default.  The quantization step is an exact rational. -/
structure EncoderParams where
  num_decomps : Nat
  reversible : Option Bool
  tileparts : Option Tileparts
  tlm_marker : Option Bool
  prog_order : Option ProgressionOrder
  block_size : Option (Nat × Nat)
  qstep : Option ℚ
deriving DecidableEq, Repr

/-- The three HTJ2K transfer syntax UIDs (`compression.py` line 22). -/
def HTJ2K_TRANSFER_SYNTAX_LIST_CODES : List String :=
  ["1.2.840.10008.1.2.4.201", "1.2.840.10008.1.2.4.202", "1.2.840.10008.1.2.4.203"]

/-- Profile selection in `HTJ2K.compress` (`compression.py` lines 377-397):
the requested name is mapped to encoder parameters and a transfer syntax
UID, every name other than RPCL and Lossless falling through to the Lossy
branch. -/
def selectProfile (profileName : String) : EncoderParams × String :=
  if profileName = "RPCL" then
    (⟨5, some true, some Tileparts.R, some true, some ProgressionOrder.RPCL,
        some (32, 32), none⟩,
     "1.2.840.10008.1.2.4.202")
  else if profileName = "Lossless" then
    (⟨5, some true, some Tileparts.R, some true, some ProgressionOrder.RPCL,
        some (64, 64), none⟩,
     "1.2.840.10008.1.2.4.201")
  else
    (⟨5, some false, none, none, none, none, some ((39 : ℚ) / 10000)⟩,
     "1.2.840.10008.1.2.4.203")

/-- Claim C4: profile selection is total — RPCL gives reversible, 32x32
blocks, tilepart grouping R, TLM marker, progression RPCL and UID
1.2.840.10008.1.2.4.202; Lossless the same flags with 64x64 blocks and
UID 1.2.840.10008.1.2.4.201; and every other name gives the Lossy
configuration (non-reversible, qstep 0.0039, UID 1.2.840.10008.1.2.4.203)
rather than failing. -/
theorem c4_profile_selection_total (s : String) :
    selectProfile "RPCL" =
      (⟨5, some true, some Tileparts.R, some true, some ProgressionOrder.RPCL,
          some (32, 32), none⟩, "1.2.840.10008.1.2.4.202") ∧
    selectProfile "Lossless" =
      (⟨5, some true, some Tileparts.R, some true, some ProgressionOrder.RPCL,
          some (64, 64), none⟩, "1.2.840.10008.1.2.4.201") ∧
    (s ≠ "RPCL" → s ≠ "Lossless" →
      selectProfile s =
        (⟨5, some false, none, none, none, none, some ((39 : ℚ) / 10000)⟩,
         "1.2.840.10008.1.2.4.203")) := by
  refine ⟨rfl, rfl, fun h1 h2 => ?_⟩
  unfold selectProfile
  rw [if_neg h1, if_neg h2]

/-- Concrete instantiation of `c4_profile_selection_total` at the unknown
profile name HTJ2K (the Python default argument), showing the permissive
fallthrough to the Lossy configuration. -/
theorem c4_witness :
    ("HTJ2K" ≠ "RPCL") ∧ ("HTJ2K" ≠ "Lossless") ∧
      selectProfile "HTJ2K" =
        (⟨5, some false, none, none, none, none, some ((39 : ℚ) / 10000)⟩,
         "1.2.840.10008.1.2.4.203") :=
  ⟨by decide, by decide,
    (c4_profile_selection_total "HTJ2K").2.2 (by decide) (by decide)⟩

/-- Left-to-right non-overlapping removal of every occurrence of the
pattern `Elapsed time = `: the model of
`output.stdout.decode.replace` with that pattern and an empty
replacement, written as structural recursion so that it evaluates inside
the kernel. -/
def stripElapsed : List Char → List Char
  | 'E' :: 'l' :: 'a' :: 'p' :: 's' :: 'e' :: 'd' :: ' ' :: 't' :: 'i' :: 'm' :: 'e' :: ' ' :: '=' :: ' ' :: rest =>
      stripElapsed rest
  | c :: rest => c :: stripElapsed rest
  | [] => []

/-- The elapsed-time text recovered from the captured stdout by deleting
every occurrence of `Elapsed time = `. -/
def parseElapsed (stdout : String) : String := String.mk (stripElapsed stdout.data)

/-- Python whitespace strip at both ends, as `float` applies to its
argument. -/
def pyStrip (cs : List Char) : List Char :=
  ((cs.dropWhile Char.isWhitespace).reverse.dropWhile Char.isWhitespace).reverse

/-- Splits a character list at every occurrence of the separator. -/
def splitOnChar (sep : Char) : List Char → List (List Char)
  | [] => [[]]
  | c :: rest =>
      if c = sep then [] :: splitOnChar sep rest
      else
        match splitOnChar sep rest with
        | [] => [[c]]
        | g :: gs => (c :: g) :: gs

/-- A nonempty run of decimal digits. -/
def digitsOnly (cs : List Char) : Bool := !cs.isEmpty && cs.all Char.isDigit

/-- Drops one leading sign character, if present. -/
def stripSign : List Char → List Char
  | '+' :: rest => rest
  | '-' :: rest => rest
  | cs => cs

/-- The mantissa of a float literal: a digit run, or a decimal point with
a digit run on at least one side. -/
def dotMantissa (cs : List Char) : Bool :=
  match splitOnChar '.' cs with
  | [a] => digitsOnly a
  | [a, b] => (digitsOnly a && (b.isEmpty || digitsOnly b)) || (a.isEmpty && digitsOnly b)
  | _ => false

/-- Acceptance of CPython `float` on the decimal-literal grammar: optional
surrounding whitespace, optional sign, mantissa, optional exponent
introduced by e or E with its own optional sign.  The inf/nan spellings
and digit-group underscores `float` also accepts lie outside the model;
every elapsed-time text the external tool prints on success is covered. -/
def pyFloatAccepts (s : String) : Bool :=
  let t := stripSign ((pyStrip s.data).map Char.toLower)
  match splitOnChar 'e' t with
  | [m] => dotMantissa m
  | [m, ex] => dotMantissa m && digitsOnly (stripSign ex)
  | _ => false

/-- Message of the `ValueError` `float` raises on a non-numeric string. -/
def floatConvErrMsg (s : String) : String :=
  "ValueError: could not convert string to float: " ++ s

/-- `float(s)`: an accepted string is returned verbatim as the
elapsed-time value (its numeric magnitude is irrelevant to every claim,
so the conversion result stays at the string level); a rejected string
raises `ValueError` — this error does not carry the stderr text. -/
def pyFloat (s : String) : Except String String :=
  if pyFloatAccepts s then .ok s else .error (floatConvErrMsg s)

/-- Shared tail of `HTJ2KBase.compress` (lines 185-191) and
`HTJ2KBase.decompress` (lines 254-258): `if output.stdout:` — a non-empty
captured stdout is stripped of `Elapsed time = ` and converted by
`float`, which itself raises for non-numeric text; an empty stdout raises
`ValueError` carrying the captured stderr text. -/
def subprocessOutcome (stdout stderr : String) : Except String String :=
  if stdout ≠ "" then pyFloat (parseElapsed stdout) else .error stderr

/-- Outcome of one `ojph_compress` invocation given its captured streams
(`compression.py` lines 185-191). -/
def ojphCompressResult (stdout stderr : String) : Except String String :=
  subprocessOutcome stdout stderr

/-- Outcome of one `ojph_expand` invocation given its captured streams
(`compression.py` lines 254-258). -/
def ojphExpandResult (stdout stderr : String) : Except String String :=
  subprocessOutcome stdout stderr

/-- Claim C5 counterexample: the claim says the wrapper fails if and only
if stdout is empty.  A non-empty stdout whose text is not a float literal
also makes the call fail — `float` raises — and that failure carries the
conversion message, not the stderr diagnostic.  So empty stdout is not the
sole failure signal. -/
theorem c5_counterexample :
    ("abc" : String) ≠ "" ∧
    ojphCompressResult "abc" "diag" = .error (floatConvErrMsg "abc") ∧
    floatConvErrMsg "abc" ≠ "diag" :=
  ⟨by decide, rfl, by decide⟩

/-- Claim C5 as amended: an empty stdout always fails with an error
carrying the stderr diagnostic; a non-empty stdout is stripped of
`Elapsed time = ` and converted by `float` — a float-literal text is
returned as the elapsed-time value, a non-numeric text fails with the
conversion error, which does not carry stderr.  Empty stdout is thus a
sufficient failure signal but not the sole one, in both wrappers. -/
theorem c5_outcome_amended (stdout stderr : String) :
    (stdout = "" →
      ojphCompressResult stdout stderr = .error stderr ∧
      ojphExpandResult stdout stderr = .error stderr) ∧
    (stdout ≠ "" → pyFloatAccepts (parseElapsed stdout) = true →
      ojphCompressResult stdout stderr = .ok (parseElapsed stdout) ∧
      ojphExpandResult stdout stderr = .ok (parseElapsed stdout)) ∧
    (stdout ≠ "" → pyFloatAccepts (parseElapsed stdout) = false →
      ojphCompressResult stdout stderr = .error (floatConvErrMsg (parseElapsed stdout)) ∧
      ojphExpandResult stdout stderr = .error (floatConvErrMsg (parseElapsed stdout))) := by
  unfold ojphCompressResult ojphExpandResult subprocessOutcome pyFloat
  refine ⟨fun h => ?_, fun h hacc => ?_, fun h hacc => ?_⟩
  · simp [h]
  · simp [h, hacc]
  · simp [h, hacc]

/-- Concrete instantiation of `c5_outcome_amended` at an empty stdout with
a diagnostic, at the success text the tool prints, and at a non-numeric
non-empty stdout. -/
theorem c5_amended_witness :
    ojphCompressResult "" "diag" = .error "diag" ∧
    ojphExpandResult "Elapsed time = 0.5" "x" = .ok (parseElapsed "Elapsed time = 0.5") ∧
    ojphExpandResult "abnormal exit" "x" =
      .error (floatConvErrMsg (parseElapsed "abnormal exit")) :=
  ⟨((c5_outcome_amended "" "diag").1 rfl).1,
   ((c5_outcome_amended "Elapsed time = 0.5" "x").2.1 (by decide) (by decide)).2,
   ((c5_outcome_amended "abnormal exit" "x").2.2 (by decide) (by decide)).2⟩

/-- The PixelData attribute of a DICOM object: either raw little-endian
sample bytes (native) or a DICOM-encapsulated fragment sequence, as
produced by pydicom `encapsulate` and consumed by `decode_data_sequence`
(both external collaborators per the spec). -/
inductive PixelDataRep
  | native (bytes : List Nat)
  | encapsulated (fragments : List (List Nat))
deriving DecidableEq, Repr

/-- The slice of a DICOM object this pipeline reads and writes. -/
structure Dicom where
  transferSyntaxUID : String
  pixelData : PixelDataRep
deriving DecidableEq, Repr

/-- UID of the generic uncompressed transfer syntax
(`pydicom.uid.ImplicitVRLittleEndian`). -/
def implicitVRLittleEndianUID : String := "1.2.840.10008.1.2"

/-- Message of the `TypeError` raised by the transfer-syntax gate at
`compression.py` lines 430-431. -/
def uidGateMsg : String :=
  "TypeError: TransferSyntaxUID is not in the supported HTJ2K transfer syntax list"

/-- Message of the `IndexError` raised by `bin_pix_data[0]` when the
decapsulated fragment list is empty. -/
def indexErrorMsg : String := "IndexError: list index out of range"

/-- Message raised when `decode_data_sequence` is applied to PixelData that
is not an encapsulated fragment sequence. -/
def notEncapsulatedMsg : String :=
  "ValueError: decode_data_sequence requires encapsulated pixel data"

/-- What `HTJ2K.decompress` produces on success: the codestream bytes it
wrote to the temporary jph file for the external decoder, and the final
state of the DICOM object it saves. -/
structure DecompressTrace where
  decoderInput : List Nat
  finalDicom : Dicom
deriving DecidableEq, Repr

/-- `HTJ2K.decompress` (`compression.py` lines 425-456), parameterized by
the raw sample bytes the external decoder writes back (`decodedBytes`).
Order of the source: gate on the transfer syntax UID, decapsulate, write
`bin_pix_data[0]` to the temporary file, decode, overwrite PixelData with
the raw bytes and set the generic uncompressed UID. -/
def decompressOrchestrate (d : Dicom) (decodedBytes : List Nat) :
    Except String DecompressTrace :=
  if d.transferSyntaxUID ∈ HTJ2K_TRANSFER_SYNTAX_LIST_CODES then
    match d.pixelData with
    | .native _ => .error notEncapsulatedMsg
    | .encapsulated fragments =>
      match fragments with
      | [] => .error indexErrorMsg
      | f :: _ =>
          .ok ⟨f, ⟨implicitVRLittleEndianUID, .native decodedBytes⟩⟩
  else
    .error uidGateMsg

/-- Claim C6: for every DICOM object whose transfer syntax UID is not one
of the three supported HTJ2K UIDs, `decompress` raises the
transfer-syntax-gate error, for every possible fragment content and
decoder output — i.e. before decapsulation and without the external
decoder being consulted. -/
theorem c6_transfer_syntax_gate (d : Dicom) (decodedBytes : List Nat)
    (h : d.transferSyntaxUID ∉ HTJ2K_TRANSFER_SYNTAX_LIST_CODES) :
    decompressOrchestrate d decodedBytes = .error uidGateMsg := by
  unfold decompressOrchestrate
  rw [if_neg h]

/-- Concrete instantiation of `c6_transfer_syntax_gate` at a DICOM object
carrying the generic uncompressed transfer syntax. -/
theorem c6_witness :
    (implicitVRLittleEndianUID ∉ HTJ2K_TRANSFER_SYNTAX_LIST_CODES) ∧
      decompressOrchestrate ⟨implicitVRLittleEndianUID, .encapsulated [[1, 2]]⟩ [7] =
        .error uidGateMsg :=
  ⟨by decide,
    c6_transfer_syntax_gate ⟨implicitVRLittleEndianUID, .encapsulated [[1, 2]]⟩ [7] (by decide)⟩

/-- `HTJ2K.compress` (`compression.py` lines 360-423), parameterized by the
precision-warning global `g`, the captured streams of the external encoder
run and the codestream bytes read back from the encoded jph file.  The
result pairs the call's outcome with the final state of the in-memory
DICOM object and the object written to disk by `save_as` (`none` when no
save happened).  In the source the object is only assigned to (PixelData,
TransferSyntaxUID) after `_compress` has returned successfully, so any
exception leaves it exactly as read. -/
def compressOrchestrate (d : Dicom) (img : List Int) (profileName : String)
    (g : Option Bool) (stdout stderr : String) (codestream : List Nat) :
    Except String String × Dicom × Option Dicom :=
  match underscoreCompress img false g with
  | .error e => (.error e, d, none)
  | .ok _ =>
    match ojphCompressResult stdout stderr with
    | .error e => (.error e, d, none)
    | .ok encodeTime =>
        let updated : Dicom :=
          ⟨(selectProfile profileName).2, .encapsulated [codestream]⟩
        (.ok encodeTime, updated, some updated)

/-- Claim C7: whenever a compress call fails (any exception, in particular
an external-encoder failure), the destination DICOM object is not mutated
at all — it is returned exactly as read and nothing is saved; PixelData
and TransferSyntaxUID are reassigned only after a fully successful
encode. -/
theorem c7_no_mutation_on_failure (d : Dicom) (img : List Int) (profileName : String)
    (g : Option Bool) (stdout stderr : String) (codestream : List Nat) (e : String)
    (h : (compressOrchestrate d img profileName g stdout stderr codestream).1 = .error e) :
    (compressOrchestrate d img profileName g stdout stderr codestream).2.1 = d ∧
      (compressOrchestrate d img profileName g stdout stderr codestream).2.2 = none := by
  unfold compressOrchestrate at *
  cases hc : underscoreCompress img false g with
  | error e1 => simp [hc]
  | ok v =>
      cases hr : ojphCompressResult stdout stderr with
      | error e2 => simp [hc, hr]
      | ok t => simp [hc, hr] at h

/-- Concrete instantiation of `c7_no_mutation_on_failure`: a valid 8-bit
buffer, but the external encoder produces an empty stdout (failure), so
the DICOM object read from disk is untouched and nothing is saved. -/
theorem c7_witness :
    (compressOrchestrate ⟨implicitVRLittleEndianUID, .native [1, 2]⟩ [1, 2] "RPCL"
        initPrecisionWarning "" "cannot open file" [9]).1 = .error "cannot open file" ∧
      ((compressOrchestrate ⟨implicitVRLittleEndianUID, .native [1, 2]⟩ [1, 2] "RPCL"
          initPrecisionWarning "" "cannot open file" [9]).2.1 =
        ⟨implicitVRLittleEndianUID, .native [1, 2]⟩ ∧
       (compressOrchestrate ⟨implicitVRLittleEndianUID, .native [1, 2]⟩ [1, 2] "RPCL"
          initPrecisionWarning "" "cannot open file" [9]).2.2 = none) :=
  ⟨rfl,
    c7_no_mutation_on_failure ⟨implicitVRLittleEndianUID, .native [1, 2]⟩ [1, 2] "RPCL"
      initPrecisionWarning "" "cannot open file" [9] "cannot open file" rfl⟩

/-- Claim C8: the spec says a multi-fragment sequence is reassembled by
concatenation before decoding.  The code writes only `bin_pix_data[0]` to
the decoder's input file: on the two-fragment sequence `[[1], [2]]` the
decoder receives `[1]`, not the concatenation `[1] ++ [2] = [1, 2]`.
(The single-fragment half of the claim does hold, as this evaluation also
shows for the first fragment.) -/
theorem c8_decoder_gets_first_fragment_only :
    decompressOrchestrate ⟨"1.2.840.10008.1.2.4.203", .encapsulated [[1], [2]]⟩ [9] =
      .ok ⟨[1], ⟨implicitVRLittleEndianUID, .native [9]⟩⟩ ∧
    ([1] : List Nat) ≠ [1] ++ [2] :=
  ⟨rfl, by decide⟩

/-- The `skip_res` argument of `HTJ2KBase.decompress`: a single integer or
a sequence of integers. -/
inductive SkipRes
  | scalar (n : Int)
  | seq (xs : List Int)
deriving DecidableEq, Repr

/-- Python truthiness of the optional `skip_res` argument as tested by
`if skip_res:` — `None`, `0` and an empty sequence are falsy. -/
def skipResTruthy : Option SkipRes → Bool
  | none => false
  | some (.scalar n) => decide (n ≠ 0)
  | some (.seq xs) => decide (xs ≠ [])

/-- f-string rendering of a boolean, lowercased. -/
def pyBoolStr (b : Bool) : String := if b then "true" else "false"

/-- Message of the `ValueError` raised for a `skip_res` sequence whose
length is not 2 (`compression.py` line 230; spelling as in the source). -/
def skipResErrMsg : String :=
  "ValueError: Invalid value! skip_res must be x,y a comma-separated list of two elements containign the number of resolutions to skip"

/-- Argument-list construction of `HTJ2KBase.decompress`
(`compression.py` lines 216-237).  For a sequence-valued `skip_res` of
length 2 no `-skip_res` element is ever appended: in the source the
append statement sits after the `raise` inside the length-check branch and
is unreachable. -/
def expandArgs (input output : String) (skip : Option SkipRes) (resilient : Bool) :
    Except String (List String) :=
  let args := ["./ojph_expand", "-i", input, "-o", output, "-resilient", pyBoolStr resilient]
  if skipResTruthy skip then
    match skip with
    | some (.seq xs) =>
        if xs.length ≠ 2 then
          .error skipResErrMsg
        else
          .ok args
    | some (.scalar n) => .ok (args ++ ["-skip_res", toString n])
    | none => .ok args
  else
    .ok args

/-- Claim C9: the spec says a two-element resolution-skip sequence is
passed through to the external decoder.  The code silently drops it: the
`-skip_res` append for that case is dead code after the length-check
`raise`, so the decoder is invoked with the base argument list only.  The
wrong-length rejection half of the claim does hold. -/
theorem c9_two_element_skip_res_dropped :
    (expandArgs "in.jph" "out.pgm" (some (.seq [2, 1])) false =
      .ok ["./ojph_expand", "-i", "in.jph", "-o", "out.pgm", "-resilient", "false"]) ∧
    ("-skip_res" ∉ ["./ojph_expand", "-i", "in.jph", "-o", "out.pgm", "-resilient", "false"]) ∧
    (expandArgs "in.jph" "out.pgm" (some (.seq [2, 1, 0])) false = .error skipResErrMsg) :=
  ⟨rfl, by decide, rfl⟩

/-- Modelled from the spec: the Codestream Framer component (spec section
4.3) is absent from `src/`; its marker scan is modelled as a left-to-right
two-byte sliding-window search recording the offset of every occurrence of
the marker pair `(m1, m2)`. -/
def markerOffsets (m1 m2 : Nat) : List Nat → Nat → List Nat
  | a :: b :: rest, i =>
      if a = m1 ∧ b = m2 then i :: markerOffsets m1 m2 (b :: rest) (i + 1)
      else markerOffsets m1 m2 (b :: rest) (i + 1)
  | _, _ => []

/-- Message of the `MalformedCodestreamError` the spec prescribes when no
end-of-image marker is found. -/
def malformedMsg : String :=
  "MalformedCodestreamError: end-of-image marker not found"

/-- Modelled from the spec: the Codestream Framer (absent from `src/`).
Given raw codestream bytes it returns the offsets of the start-of-tile-part
markers (0xFF 0x90) in encounter order, and raises
`MalformedCodestreamError` when the end-of-image marker (0xFF 0xD9) does
not occur, rather than returning an empty or partial list. -/
def frameCodestream (bytes : List Nat) : Except String (List Nat) :=
  let sot := markerOffsets 255 144 bytes 0
  let eoc := markerOffsets 255 217 bytes 0
  if eoc = [] then .error malformedMsg else .ok sot

/-- The synthetic byte sequence of the claim: N start-of-tile-part markers
followed by one end-of-image marker. -/
def syntheticStream (N : Nat) : List Nat :=
  (List.replicate N [255, 144]).flatten ++ [255, 217]

theorem markerOffsets_cons_of_ne (m1 m2 a : Nat) (l : List Nat) (i : Nat) (h : a ≠ m1) :
    markerOffsets m1 m2 (a :: l) i = markerOffsets m1 m2 l (i + 1) := by
  cases l with
  | nil => simp [markerOffsets]
  | cons b rest => simp [markerOffsets, h]

theorem syntheticStream_succ (n : Nat) :
    syntheticStream (n + 1) = 255 :: 144 :: syntheticStream n := by
  simp [syntheticStream, List.replicate_succ]

theorem markerOffsets_sot_synthetic (N : Nat) :
    ∀ i, markerOffsets 255 144 (syntheticStream N) i =
      (List.range N).map (fun k => i + 2 * k) := by
  induction N with
  | zero => intro i; simp [syntheticStream, markerOffsets]
  | succ n ih =>
      intro i
      rw [syntheticStream_succ]
      rw [show markerOffsets 255 144 (255 :: 144 :: syntheticStream n) i =
            i :: markerOffsets 255 144 (144 :: syntheticStream n) (i + 1) from by
          simp [markerOffsets]]
      rw [markerOffsets_cons_of_ne 255 144 144 (syntheticStream n) (i + 1) (by decide)]
      rw [show i + 1 + 1 = i + 2 from rfl]
      rw [ih (i + 2)]
      rw [List.range_succ_eq_map, List.map_cons, List.map_map]
      have hfun : ((fun k => i + 2 * k) ∘ Nat.succ) = (fun k => i + 2 + 2 * k) := by
        funext k
        simp [Function.comp, Nat.mul_succ]
        omega
      rw [hfun]
      simp

theorem markerOffsets_eoc_synthetic (N : Nat) :
    ∀ i, markerOffsets 255 217 (syntheticStream N) i = [i + 2 * N] := by
  induction N with
  | zero => intro i; simp [syntheticStream, markerOffsets]
  | succ n ih =>
      intro i
      rw [syntheticStream_succ]
      rw [show markerOffsets 255 217 (255 :: 144 :: syntheticStream n) i =
            markerOffsets 255 217 (144 :: syntheticStream n) (i + 1) from by
          simp [markerOffsets]]
      rw [markerOffsets_cons_of_ne 255 217 144 (syntheticStream n) (i + 1) (by decide)]
      rw [show i + 1 + 1 = i + 2 from rfl]
      rw [ih (i + 2)]
      congr 1
      omega

theorem markerOffsets_eq_nil_of_no_window (m1 m2 : Nat) :
    ∀ (l : List Nat) (i : Nat),
      (∀ j, ¬(l[j]? = some m1 ∧ l[j + 1]? = some m2)) →
      markerOffsets m1 m2 l i = [] := by
  intro l
  induction l with
  | nil => intro i _; simp [markerOffsets]
  | cons a t iht =>
      intro i h
      cases t with
      | nil => simp [markerOffsets]
      | cons b rest =>
          have h0 : ¬(a = m1 ∧ b = m2) := by
            have := h 0
            simpa using this
          rw [show markerOffsets m1 m2 (a :: b :: rest) i =
                if a = m1 ∧ b = m2 then i :: markerOffsets m1 m2 (b :: rest) (i + 1)
                else markerOffsets m1 m2 (b :: rest) (i + 1) from rfl]
          rw [if_neg h0]
          apply iht (i + 1)
          intro j
          have := h (j + 1)
          simpa using this

/-- Claim C10 (Codestream Framer, modelled from the spec since its code is
not under `src/`): for the synthetic stream of N start-of-tile-part
markers followed by one end-of-image marker the Framer returns exactly N
boundaries, in strictly ascending offset order; and for every byte
sequence in which the end-of-image marker pair never occurs it raises
`MalformedCodestreamError` instead of returning a list. -/
theorem c10_framer (N : Nat) (bytes : List Nat)
    (hno : ∀ j, ¬(bytes[j]? = some 255 ∧ bytes[j + 1]? = some 217)) :
    (frameCodestream (syntheticStream N) = .ok ((List.range N).map (fun k => 2 * k)) ∧
      ((List.range N).map (fun k => 2 * k)).length = N ∧
      List.Pairwise (· < ·) ((List.range N).map (fun k => 2 * k))) ∧
    frameCodestream bytes = .error malformedMsg := by
  constructor
  · refine ⟨?_, by simp, ?_⟩
    · unfold frameCodestream
      rw [markerOffsets_eoc_synthetic N 0]
      rw [if_neg (by simp)]
      rw [markerOffsets_sot_synthetic N 0]
      simp
    · refine List.Pairwise.map _ ?_ (List.pairwise_lt_range N)
      intro a b hab
      omega
  · unfold frameCodestream
    rw [markerOffsets_eq_nil_of_no_window 255 217 bytes 0 hno]
    simp

/-- Concrete instantiation of `c10_framer` at N = 2 and at the EOC-less
byte sequence 255, 144 (which contains a tile-part marker but no
end-of-image marker, so no partial list is returned). -/
theorem c10_witness :
    frameCodestream (syntheticStream 2) = .ok ((List.range 2).map (fun k => 2 * k)) ∧
    frameCodestream [255, 144] = .error malformedMsg := by
  have hno : ∀ j, ¬(([255, 144] : List Nat)[j]? = some 255 ∧
      ([255, 144] : List Nat)[j + 1]? = some 217) := by
    intro j h
    match j with
    | 0 => exact absurd h.2 (by decide)
    | 1 => exact absurd h.1 (by decide)
    | j + 2 => simp at h
  exact ⟨(c10_framer 2 [255, 144] hno).1.1, (c10_framer 2 [255, 144] hno).2⟩

end DicomHTJ2K
